import Mathlib

/-!
Verification of the EchoMind browser client (static/js script, MediaRecorder
variant).  The definitions below are a shallow embedding of the script:

* `jsTrim` models `String.prototype.trim`;
* `ondataavailable`, `recordedChunks` model the chunk-buffering handler;
* `processRecordedAudio` models the transcription hand-off function;
* `processUserInput` models the turn dispatcher;
* `submitStart` / `sendClick` model the submission entry points as a state
  transition, to reason about repeated submissions;
* `stepCapture` / `runCapture` model the voice-toggle event handling around
  the `isRecording` flag;
* `startRecording` models the microphone acquisition and recorder start-up,
  tracking whether the acquired stream handle is released;
* `announce` / `fireTimer` model the status indicator with its auto-hide
  timers, tracking which DOM element the module-level variable references.
-/

namespace EchoMind

/-- Severity of a status notice, as passed to `updateStatusIndicator`. -/
inductive Severity
  | info
  | listening
  | error
  deriving Repr, DecidableEq

/-- A status notice: the message text and its severity. -/
structure Notice where
  message : String
  severity : Severity
  deriving Repr, DecidableEq

/-- Trim of a character list: drop leading and trailing whitespace. -/
def trimChars (cs : List Char) : List Char :=
  List.rdropWhile Char.isWhitespace (List.dropWhile Char.isWhitespace cs)

/-- Models JavaScript `String.prototype.trim`: remove leading and trailing
whitespace characters. -/
def jsTrim (s : String) : String :=
  String.mk (trimChars s.data)

theorem jsTrim_empty : jsTrim "" = "" := rfl

theorem dropWhile_eq_self_of_rdropWhile {p : Char → Bool} {l : List Char}
    (h : List.dropWhile p l = l) :
    List.dropWhile p (List.rdropWhile p l) = List.rdropWhile p l := by
  obtain ⟨t, ht⟩ := List.rdropWhile_prefix p l
  cases hrl : List.rdropWhile p l with
  | nil => rfl
  | cons a t2 =>
    rw [hrl, List.cons_append] at ht
    have ha : p a = false := by
      cases hpa : p a
      · rfl
      · exfalso
        rw [← ht, List.dropWhile_cons, hpa, if_pos rfl] at h
        have hle := (List.dropWhile_sublist (l := t2 ++ t) p).length_le
        rw [h] at hle
        simp at hle
    rw [List.dropWhile_cons, ha]
    simp

theorem trimChars_idem (cs : List Char) : trimChars (trimChars cs) = trimChars cs := by
  unfold trimChars
  rw [dropWhile_eq_self_of_rdropWhile (List.dropWhile_idempotent _ _),
    List.rdropWhile_idempotent]

theorem jsTrim_idem (s : String) : jsTrim (jsTrim s) = jsTrim s := by
  unfold jsTrim
  exact congrArg String.mk (trimChars_idem s.data)

/-- Models the `mediaRecorder.ondataavailable` handler: a delivered chunk is
appended to the buffer only when its size is positive. -/
def ondataavailable (buf : List (List Nat)) (chunk : List Nat) : List (List Nat) :=
  if 0 < chunk.length then buf ++ [chunk] else buf

/-- The `audioChunks` buffer after the handler has processed every delivered
chunk in arrival order, starting from the empty buffer set in `startRecording`. -/
def recordedChunks (delivered : List (List Nat)) : List (List Nat) :=
  delivered.foldl ondataavailable []

/-- Outcome of the `/transcribe_audio` fetch as observed by the client:
either the fetch rejects, or a response arrives with an `ok` flag, a status
code, an `error` body field and a `text` body field (absent fields modelled
as the empty string, matching JavaScript truthiness checks). -/
inductive TranscribeOutcome
  | netError (msg : String)
  | reply (ok : Bool) (status : Nat) (errField : String) (text : String)
  deriving Repr, DecidableEq

/-- Whether `processRecordedAudio` reaches its catch block for this outcome:
a rejected fetch, a non-ok response, or a truthy `error` field in the body. -/
def isTranscribeFailure : TranscribeOutcome → Bool
  | .netError _ => true
  | .reply ok _ errField _ => !ok || errField != ""

/-- The `error.message` observed in the catch block of `processRecordedAudio`:
the rejection message, or the thrown `errorData.error || Server error: status`
message, or the thrown `data.error` message. -/
def transcribeFailureMsg : TranscribeOutcome → String
  | .netError m => m
  | .reply ok status errField _ =>
      if !ok then (if errField = "" then "Server error: " ++ toString status else errField)
      else errField

/-- The `text` field of the transcription response body (empty when absent). -/
def transcriptText : TranscribeOutcome → String
  | .netError _ => ""
  | .reply _ _ _ t => t

/-- Observable effects of one `processRecordedAudio` call. -/
structure AudioResult where
  networkCalls : Nat
  payload : Option (List Nat)
  notices : List Notice
  inputValue : String
  autoSubmitScheduled : Bool
  chunksAfter : List (List Nat)
  deriving Repr, DecidableEq

/-- Models `processRecordedAudio`: with an empty buffer it returns before the
try block (no fetch, error notice, buffer not cleared); otherwise it posts the
concatenation of the buffered chunks, and on success with a non-whitespace
transcript fills the input field and schedules the delayed auto-submit.  The
finally block clears the buffer on every path through the try block. -/
def processRecordedAudio (chunks : List (List Nat)) (inputBefore : String)
    (resp : TranscribeOutcome) : AudioResult :=
  if chunks.isEmpty then
    { networkCalls := 0, payload := none
      notices := [⟨"No audio recorded. Please try again.", Severity.error⟩]
      inputValue := inputBefore, autoSubmitScheduled := false, chunksAfter := chunks }
  else if isTranscribeFailure resp then
    { networkCalls := 1, payload := some chunks.flatten
      notices := [⟨"Transcribing audio...", Severity.info⟩,
        ⟨"Error: " ++ transcribeFailureMsg resp, Severity.error⟩]
      inputValue := inputBefore, autoSubmitScheduled := false, chunksAfter := [] }
  else if jsTrim (transcriptText resp) != "" then
    { networkCalls := 1, payload := some chunks.flatten
      notices := [⟨"Transcribing audio...", Severity.info⟩,
        ⟨"Transcription complete! Click send or record again.", Severity.info⟩]
      inputValue := jsTrim (transcriptText resp), autoSubmitScheduled := true
      chunksAfter := [] }
  else
    { networkCalls := 1, payload := some chunks.flatten
      notices := [⟨"Transcribing audio...", Severity.info⟩,
        ⟨"No speech detected. Please try again.", Severity.error⟩]
      inputValue := inputBefore, autoSubmitScheduled := false, chunksAfter := [] }

theorem foldl_ondataavailable (delivered : List (List Nat)) :
    ∀ buf : List (List Nat),
      (delivered.foldl ondataavailable buf).flatten = buf.flatten ++ delivered.flatten := by
  induction delivered with
  | nil => intro buf; simp
  | cons c ds ih =>
    intro buf
    rw [List.foldl_cons, ih]
    unfold ondataavailable
    by_cases h : 0 < c.length
    · simp [h, List.append_assoc]
    · have hc : c = [] := by
        cases c with
        | nil => rfl
        | cons a t => simp at h
      simp [h, hc]

theorem recordedChunks_join (delivered : List (List Nat)) :
    (recordedChunks delivered).flatten = delivered.flatten := by
  unfold recordedChunks
  rw [foldl_ondataavailable]
  rfl

/-- Outcome of the `/process_input` fetch as observed by the client: either
the fetch rejects with an error whose message may be empty, or a response
arrives with an `ok` flag, a status code, and `error` / `text` / `audio` body
fields (absent or falsy fields modelled as the empty string, matching the
JavaScript truthiness checks in the script). -/
inductive ReasonOutcome
  | netError (msg : String)
  | reply (ok : Bool) (status : Nat) (errField : String) (text : String) (audio : String)
  deriving Repr, DecidableEq

/-- Whether `processUserInput` reaches its catch block for this outcome:
a rejected fetch, a non-ok response, or a truthy `error` field in the body. -/
def isTurnFailure : ReasonOutcome → Bool
  | .netError _ => true
  | .reply ok _ errField _ _ => !ok || errField != ""

/-- The `errorMsg` computed in the catch block of `processUserInput`:
`error.message || fallback`, where `error` is the fetch rejection, the thrown
`errorData.error || Server error: status`, or the thrown `data.error`. -/
def reasonFailureMsg : ReasonOutcome → String
  | .netError m => if m = "" then "Sorry, I encountered an error. Please try again." else m
  | .reply ok status errField _ _ =>
      if !ok then (if errField = "" then "Server error: " ++ toString status else errField)
      else errField

/-- The `text` field of the reasoning response body (empty when absent). -/
def replyText : ReasonOutcome → String
  | .netError _ => ""
  | .reply _ _ _ t _ => t

/-- The `audio` field of the reasoning response body (empty when absent). -/
def replyAudio : ReasonOutcome → String
  | .netError _ => ""
  | .reply _ _ _ _ a => a

/-- Observable effects of one `processUserInput` call: remote requests
issued, chat entries appended in order (sender, text), typing indicator
lifecycle, notices issued, whether the live status notice was cleared, the
`inputText` of the conversation turn created (if any), and whether response
audio ended up playing. -/
structure TurnResult where
  requests : List String
  chat : List (String × String)
  typingShown : Bool
  typingRemoved : Bool
  notices : List Notice
  statusCleared : Bool
  turnInput : Option String
  audioPlayed : Bool
  deriving Repr, DecidableEq

/-- Models `processUserInput text` for one complete round-trip with outcome
`o`.  A blank `text` returns immediately.  Otherwise the trimmed text is
appended as a user chat entry, the input field and status notice are cleared,
the typing indicator is shown, and exactly one request is issued.  All three
failure modes funnel into the single catch block: remove the typing
indicator, append one `ai` chat entry prefixed with `Error: `, and show an
error notice.  On success the `ai` entry carries the response text; audio, if
present, is played (a playback failure degrades to an error notice), and a
response without audio produces an informational notice. -/
def processUserInput (text : String) (o : ReasonOutcome) (playbackOk : Bool) : TurnResult :=
  if jsTrim text = "" then
    { requests := [], chat := [], typingShown := false, typingRemoved := false
      notices := [], statusCleared := false, turnInput := none, audioPlayed := false }
  else
    let inputText := jsTrim text
    if isTurnFailure o then
      { requests := [inputText]
        chat := [("user", inputText), ("ai", "Error: " ++ reasonFailureMsg o)]
        typingShown := true, typingRemoved := true
        notices := [⟨reasonFailureMsg o, Severity.error⟩]
        statusCleared := true, turnInput := some inputText, audioPlayed := false }
    else
      { requests := [inputText]
        chat := [("user", inputText), ("ai", replyText o)]
        typingShown := true, typingRemoved := true
        notices :=
          if replyAudio o != "" then
            (if playbackOk then []
             else [⟨"Audio playback failed. Text response is available above.", Severity.error⟩])
          else [⟨"Response received (no audio)", Severity.info⟩]
        statusCleared := true, turnInput := some inputText
        audioPlayed := replyAudio o != "" && playbackOk }

/-- Models the `setTimeout` callback scheduled by `processRecordedAudio` after
a successful transcription: when it fires it re-reads the input field, and
only a still non-blank trimmed value is submitted via `processUserInput`. -/
def autoSubmitFire (fieldAtFire : String) (o : ReasonOutcome) (playbackOk : Bool) :
    Option TurnResult :=
  if jsTrim fieldAtFire = "" then none
  else some (processUserInput (jsTrim fieldAtFire) o playbackOk)

/-- State shared by the submission entry points: the input field value, the
number of unresolved turns in flight, the remote request texts issued, and
the chat entries appended so far. -/
structure DispatchState where
  inputField : String
  pending : Nat
  requests : List String
  chat : List (String × String)
  deriving Repr, DecidableEq

def dispatchInit : DispatchState :=
  { inputField := "", pending := 0, requests := [], chat := [] }

/-- The synchronous prefix of `processUserInput text` up to its suspension on
the fetch: the only guard is the blank check; there is no pending-turn check,
so it appends the user entry, clears the field, and issues the request
unconditionally. -/
def submitStart (st : DispatchState) (text : String) : DispatchState :=
  if jsTrim text = "" then st
  else
    { inputField := ""
      pending := st.pending + 1
      requests := st.requests ++ [jsTrim text]
      chat := st.chat ++ [("user", jsTrim text)] }

/-- Models the send-button and enter-key listeners: read the field, submit
only when the trimmed value is non-blank, then clear the field. -/
def sendClick (st : DispatchState) : DispatchState :=
  if jsTrim st.inputField = "" then st
  else { submitStart st (jsTrim st.inputField) with inputField := "" }

theorem sendClick_of_empty {st : DispatchState} (h : jsTrim st.inputField = "") :
    sendClick st = st := by
  simp [sendClick, h]

/-- Events the capture controller reacts to: a toggle (voice button click or
space-bar shortcut), and resolution of a pending `getUserMedia` request. -/
inductive CaptureEvent
  | toggle
  | micGranted
  | micDenied
  deriving Repr, DecidableEq

/-- Runtime configuration of the capture controller as the script keeps it:
the `isRecording` flag, the number of unresolved `getUserMedia` promises,
and counters for `getUserMedia` calls issued and recorder stops requested. -/
structure CaptureSim where
  isRecording : Bool
  pendingAcquires : Nat
  acquires : Nat
  stops : Nat
  deriving Repr, DecidableEq

def captureInit : CaptureSim :=
  { isRecording := false, pendingAcquires := 0, acquires := 0, stops := 0 }

/-- Models `toggleVoiceRecording` and the `getUserMedia` continuations.  The
toggle dispatches only on the `isRecording` flag: when it is set the recorder
is stopped, otherwise `startRecording` runs and issues a new `getUserMedia`
request, even when a previous acquisition is still pending or processing is
underway.  A granted acquisition sets `isRecording`; a denied one only
resolves the promise (the catch block shows a notice). -/
def stepCapture (st : CaptureSim) : CaptureEvent → CaptureSim
  | .toggle =>
      if st.isRecording then { st with isRecording := false, stops := st.stops + 1 }
      else { st with pendingAcquires := st.pendingAcquires + 1, acquires := st.acquires + 1 }
  | .micGranted =>
      if 0 < st.pendingAcquires then
        { st with pendingAcquires := st.pendingAcquires - 1, isRecording := true }
      else st
  | .micDenied =>
      if 0 < st.pendingAcquires then
        { st with pendingAcquires := st.pendingAcquires - 1 }
      else st

def runCapture (st : CaptureSim) : List CaptureEvent → CaptureSim
  | [] => st
  | e :: es => runCapture (stepCapture st e) es

/-- Count of toggle events in a trace that arrive while `isRecording` is
clear, i.e. the toggles the script routes into `startRecording`. -/
def nonRecordingToggles (st : CaptureSim) : List CaptureEvent → Nat
  | [] => 0
  | e :: es =>
      (match e with
       | CaptureEvent.toggle => if st.isRecording then 0 else 1
       | _ => 0) + nonRecordingToggles (stepCapture st e) es

/-- Environment of one `startRecording` call: whether `getUserMedia`
resolves, the name and message of its rejection error, whether constructing
and starting the `MediaRecorder` succeeds, and the message of the error
thrown when it does not. -/
structure StartEnv where
  micGranted : Bool
  micErrName : String
  micErrMessage : String
  recorderOk : Bool
  recErrMessage : String
  deriving Repr, DecidableEq

/-- The user-facing message built in the catch block of `startRecording`,
keyed by the error name. -/
def startFailureMsg (errName errMessage : String) : String :=
  "Failed to start recording. " ++
    (if errName = "NotAllowedError" ∨ errName = "PermissionDeniedError" then
      "Microphone permission denied. Please allow microphone access."
    else if errName = "NotFoundError" ∨ errName = "DevicesNotFoundError" then
      "No microphone found. Please connect a microphone."
    else if errMessage = "" then "Please try again." else errMessage)

/-- Observable result of one `startRecording` call: whether a live microphone
stream handle is still held when the call completes, whether the recorder is
running, and the notices issued in order. -/
structure StartResult where
  streamHeld : Bool
  isRecording : Bool
  notices : List Notice
  deriving Repr, DecidableEq

/-- Models `startRecording`.  When `getUserMedia` rejects, no stream was ever
acquired.  When it resolves but recorder construction or start-up throws, the
catch block updates only the notice and the button: `audioStream` keeps the
live stream, because the only code stopping its tracks sits in the `onstop`
handler, which never runs on this path. -/
def startRecording (env : StartEnv) : StartResult :=
  if env.micGranted then
    if env.recorderOk then
      { streamHeld := true, isRecording := true
        notices := [⟨"Requesting microphone access...", Severity.info⟩,
          ⟨"Recording... Speak now! (Click stop when done)", Severity.listening⟩] }
    else
      { streamHeld := true, isRecording := false
        notices := [⟨"Requesting microphone access...", Severity.info⟩,
          ⟨startFailureMsg "" env.recErrMessage, Severity.error⟩] }
  else
    { streamHeld := false, isRecording := false
      notices := [⟨"Requesting microphone access...", Severity.info⟩,
        ⟨startFailureMsg env.micErrName env.micErrMessage, Severity.error⟩] }

/-- State of the status indicator subsystem: the id of the next element
`updateStatusIndicator` will create, the element currently in the document
(id and notice), the element the module-level `statusIndicator` variable
references, and the fire times of pending auto-hide callbacks. -/
structure StatusSt where
  nextId : Nat
  dom : Option (Nat × Notice)
  var : Option Nat
  timers : List Nat
  deriving Repr, DecidableEq

def statusInit : StatusSt :=
  { nextId := 0, dom := none, var := none, timers := [] }

/-- Models `updateStatusIndicator(message, type)` at time `now`: the existing
element is removed from the document, a fresh element is inserted and the
module variable now references it, and only for the `info` severity an
auto-hide callback is scheduled to fire 5 time-units later. -/
def announce (st : StatusSt) (message : String) (severity : Severity) (now : Nat) : StatusSt :=
  { nextId := st.nextId + 1
    dom := some (st.nextId, ⟨message, severity⟩)
    var := some st.nextId
    timers := if severity = Severity.info then st.timers ++ [now + 5] else st.timers }

/-- Models an auto-hide callback firing at time `t`: the closure reads the
current value of the `statusIndicator` variable and removes that element if
it is still in the document, whatever notice it carries by now. -/
def fireTimer (st : StatusSt) (t : Nat) : StatusSt :=
  if st.timers.contains t then
    { st with
      timers := st.timers.erase t
      dom :=
        match st.var, st.dom with
        | some id, some (domId, n) => if id = domId then none else some (domId, n)
        | _, _ => st.dom }
  else st

/-- Models the explicit status removal done at the start of
`processUserInput`: the element with id `voice-status` leaves the document;
the module variable keeps its reference. -/
def clearStatus (st : StatusSt) : StatusSt :=
  { st with dom := none }

/-- C1: evaluation of the code on the failing path.  When `getUserMedia`
resolves but recorder construction or start-up throws, `startRecording`
completes on its error path with the acquired stream still held: the catch
block never stops the tracks, contradicting the claim that every exit path
releases the microphone stream.  On the denial path, where no stream was
acquired, nothing is held. -/
theorem c1_startup_error_leaves_stream :
    (startRecording
        { micGranted := true, micErrName := "", micErrMessage := ""
          recorderOk := false, recErrMessage := "mimeType unsupported" }).isRecording
      = false ∧
    (startRecording
        { micGranted := true, micErrName := "", micErrMessage := ""
          recorderOk := false, recErrMessage := "mimeType unsupported" }).streamHeld
      = true ∧
    (startRecording
        { micGranted := false, micErrName := "NotAllowedError", micErrMessage := ""
          recorderOk := true, recErrMessage := "" }).streamHeld
      = false := by
  decide

/-- C2 counterexample: `processUserInput` has no pending-turn check, so a
second invocation with the same non-empty text while the first turn is still
unresolved issues a second remote request instead of being ignored. -/
theorem c2_counterexample :
    (submitStart dispatchInit "hello").pending = 1 ∧
    (submitStart (submitStart dispatchInit "hello") "hello").requests =
      ["hello", "hello"] := by
  decide

/-- C2 amended: duplicate submission of the same text is prevented only by
the entry points clearing the input field on the first submission, so a
repeated send or enter activation without retyping finds a blank field and is
a complete no-op; no second request is issued through the UI path. -/
theorem c2_amended (st : DispatchState) :
    sendClick (sendClick st) = sendClick st := by
  by_cases h : jsTrim st.inputField = ""
  · rw [sendClick_of_empty h]
    exact sendClick_of_empty h
  · have h2 : (sendClick st).inputField = "" := by
      simp [sendClick, h]
    exact sendClick_of_empty (by rw [h2]; exact jsTrim_empty)

/-- C3: for every sequence of chunks delivered during a recording session,
the payload submitted to transcription is the concatenation of exactly those
chunks in arrival order (no byte dropped, duplicated, or reordered); when the
accumulated buffer is empty nothing is submitted. -/
theorem c3_payload_order (delivered : List (List Nat)) (inp : String)
    (resp : TranscribeOutcome) :
    (processRecordedAudio (recordedChunks delivered) inp resp).payload =
      if (recordedChunks delivered).isEmpty then none else some delivered.flatten := by
  by_cases h : (recordedChunks delivered).isEmpty
  · simp [processRecordedAudio, h]
  · by_cases hf : isTranscribeFailure resp
    · simp [processRecordedAudio, h, hf, recordedChunks_join]
    · by_cases htext : jsTrim (transcriptText resp) != ""
      · simp [processRecordedAudio, h, hf, htext, recordedChunks_join]
      · simp [processRecordedAudio, h, hf, htext, recordedChunks_join]

/-- C4 counterexample: after one toggle from idle the machine is in the
requesting situation (acquisition pending, not recording); a second toggle
there is not a no-op, it issues a second `getUserMedia` acquisition. -/
theorem c4_counterexample :
    (stepCapture captureInit CaptureEvent.toggle).isRecording = false ∧
    (stepCapture captureInit CaptureEvent.toggle).pendingAcquires = 1 ∧
    (runCapture captureInit [CaptureEvent.toggle, CaptureEvent.toggle]).acquires = 2 := by
  decide

/-- C4 amended: the toggle dispatches only on the `isRecording` flag.  Over
every event trace, the number of `getUserMedia` acquisitions issued equals
the number of toggle events that arrived while `isRecording` was clear —
including toggles during a pending acquisition or during processing, which
therefore start a new acquisition rather than being ignored; toggles while
recording never acquire. -/
theorem c4_amended (st : CaptureSim) (es : List CaptureEvent) :
    (runCapture st es).acquires = st.acquires + nonRecordingToggles st es := by
  induction es generalizing st with
  | nil => simp [runCapture, nonRecordingToggles]
  | cons e es ih =>
    cases e with
    | toggle =>
      by_cases h : st.isRecording
      · simp [runCapture, nonRecordingToggles, stepCapture, h, ih]
      · simp [runCapture, nonRecordingToggles, stepCapture, h, ih]
        omega
    | micGranted =>
      by_cases h : 0 < st.pendingAcquires <;>
        simp [runCapture, nonRecordingToggles, stepCapture, h, ih]
    | micDenied =>
      by_cases h : 0 < st.pendingAcquires <;>
        simp [runCapture, nonRecordingToggles, stepCapture, h, ih]

/-- C5: evaluation of the code on the failing trace.  An info notice at time
0 schedules an auto-hide callback for time 5; a listening notice replaces it
at time 1; when the callback fires at time 5 it removes whatever element the
module variable references — here the live listening notice — even though no
replacement or lifecycle clear occurred.  The last two conjuncts record the
intended halves: a still-displayed info notice is removed after the 5-unit
delay, and no auto-hide is ever scheduled for error or listening notices. -/
theorem c5_stale_timer_removes_listening :
    (announce statusInit "Requesting microphone access..." Severity.info 0).timers = [5] ∧
    (announce (announce statusInit "Requesting microphone access..." Severity.info 0)
        "Recording... Speak now! (Click stop when done)" Severity.listening 1).dom =
      some (1, ⟨"Recording... Speak now! (Click stop when done)", Severity.listening⟩) ∧
    (fireTimer (announce (announce statusInit "Requesting microphone access..." Severity.info 0)
        "Recording... Speak now! (Click stop when done)" Severity.listening 1) 5).dom = none ∧
    (fireTimer (announce statusInit "Transcribing audio..." Severity.info 0) 5).dom = none ∧
    (announce statusInit "No audio recorded. Please try again." Severity.error 0).timers = [] ∧
    (announce statusInit "Recording... Speak now! (Click stop when done)"
        Severity.listening 0).timers = [] := by
  decide

/-- C6: a recording stopped with an empty chunk buffer short-circuits: no
network call, a no-audio notice, no auto-submit, and the input field is left
untouched. -/
theorem c6_empty_recording_short_circuit (inp : String) (resp : TranscribeOutcome) :
    processRecordedAudio [] inp resp =
      { networkCalls := 0, payload := none
        notices := [⟨"No audio recorded. Please try again.", Severity.error⟩]
        inputValue := inp, autoSubmitScheduled := false, chunksAfter := [] } := by
  rfl

/-- C7: for every turn whose reasoning request fails — rejected fetch,
non-ok status, or a truthy error field in the body — the dispatcher removes
the typing indicator, appends exactly one assistant chat entry prefixed with
`Error: ` carrying the failure detail, issues an error notice with that
detail, and issues exactly one request (no automatic retry). -/
theorem c7_failure_path (t : String) (o : ReasonOutcome) (p : Bool)
    (ht : jsTrim t ≠ "") (ho : isTurnFailure o = true) :
    (processUserInput t o p).typingRemoved = true ∧
    (processUserInput t o p).chat =
      [("user", jsTrim t), ("ai", "Error: " ++ reasonFailureMsg o)] ∧
    (processUserInput t o p).notices = [⟨reasonFailureMsg o, Severity.error⟩] ∧
    (processUserInput t o p).requests = [jsTrim t] := by
  simp [processUserInput, ht, ho]

/-- C7 witness: the spec scenario of an HTTP 500 from the reasoning
endpoint, at input text `hi`. -/
theorem c7_failure_path_witness :
    (processUserInput "hi" (ReasonOutcome.reply false 500 "" "" "") true).typingRemoved
      = true ∧
    (processUserInput "hi" (ReasonOutcome.reply false 500 "" "" "") true).chat =
      [("user", jsTrim "hi"),
       ("ai", "Error: " ++ reasonFailureMsg (ReasonOutcome.reply false 500 "" "" ""))] ∧
    (processUserInput "hi" (ReasonOutcome.reply false 500 "" "" "") true).notices =
      [⟨reasonFailureMsg (ReasonOutcome.reply false 500 "" "" ""), Severity.error⟩] ∧
    (processUserInput "hi" (ReasonOutcome.reply false 500 "" "" "") true).requests =
      [jsTrim "hi"] :=
  c7_failure_path "hi" (ReasonOutcome.reply false 500 "" "" "") true
    (by decide) (by decide)

/-- C8 counterexample: the empty-recording condition is surfaced with a
notice of severity `error` — the same severity used for genuine failures and
distinct from `info` — refuting the claim that it carries a non-error
informational or warning severity. -/
theorem c8_counterexample :
    (processRecordedAudio [] "" (TranscribeOutcome.reply true 200 "" "")).notices =
      [⟨"No audio recorded. Please try again.", Severity.error⟩] ∧
    Severity.error ≠ Severity.info ∧ Severity.error ≠ Severity.listening := by
  decide

/-- C8 amended: each empty-result condition is surfaced with its own
distinct message and none takes the failure path (no `Error: ` chat entry,
no retry); the no-audio response uses an informational notice, but the
empty-recording and empty-transcript conditions are reported with
error-severity notices. -/
theorem c8_amended_distinct_conditions :
    (processRecordedAudio [] "" (TranscribeOutcome.reply true 200 "" "")).notices =
      [⟨"No audio recorded. Please try again.", Severity.error⟩] ∧
    (processRecordedAudio [[1]] "" (TranscribeOutcome.reply true 200 "" " ")).notices =
      [⟨"Transcribing audio...", Severity.info⟩,
       ⟨"No speech detected. Please try again.", Severity.error⟩] ∧
    (processRecordedAudio [[1]] "" (TranscribeOutcome.reply true 200 "" " ")).autoSubmitScheduled
      = false ∧
    (processUserInput "hi" (ReasonOutcome.reply true 200 "" "fine" "") true).notices =
      [⟨"Response received (no audio)", Severity.info⟩] ∧
    (processUserInput "hi" (ReasonOutcome.reply true 200 "" "fine" "") true).chat =
      [("user", "hi"), ("ai", "fine")] ∧
    ("No audio recorded. Please try again." ≠ "No speech detected. Please try again.") ∧
    ("No audio recorded. Please try again." ≠ "Response received (no audio)") ∧
    ("No speech detected. Please try again." ≠ "Response received (no audio)") := by
  decide

/-- C9: round-trip of the transcript `hello` — after processing the
transcription response the input field holds `hello` and the auto-submit is
scheduled; when it fires on the unchanged field, the turn it creates has
input text `hello` and posts exactly that text. -/
theorem c9_round_trip :
    (processRecordedAudio [[1]] "" (TranscribeOutcome.reply true 200 "" "hello")).inputValue
      = "hello" ∧
    (processRecordedAudio [[1]] "" (TranscribeOutcome.reply true 200 "" "hello")).autoSubmitScheduled
      = true ∧
    ((autoSubmitFire "hello" (ReasonOutcome.reply true 200 "" "fine" "") true).bind
        fun r => r.turnInput) = some "hello" ∧
    ((autoSubmitFire "hello" (ReasonOutcome.reply true 200 "" "fine" "") true).map
        fun r => r.requests) = some ["hello"] := by
  decide

/-- C10: the delayed auto-submit re-checks the field at fire time: a turn is
created exactly when the trimmed field value is still non-blank at that
moment, and then its input text and single posted request are that trimmed
value; a field cleared during the delay creates no turn. -/
theorem c10_auto_submit_recheck (field : String) (o : ReasonOutcome) (p : Bool) :
    ((autoSubmitFire field o p).bind fun r => r.turnInput) =
      (if jsTrim field = "" then none else some (jsTrim field)) ∧
    ((autoSubmitFire field o p).map fun r => r.requests) =
      (if jsTrim field = "" then none else some [jsTrim field]) := by
  by_cases h : jsTrim field = ""
  · simp [autoSubmitFire, h]
  · have hId := jsTrim_idem field
    by_cases hf : isTurnFailure o <;>
      simp [autoSubmitFire, h, processUserInput, hId, hf]

end EchoMind
